import Mathlib

/-!
Verification of the ZMK split-keyboard BLE central (`src/app/src/split/bluetooth/central.c`).

The C module is shallowly embedded below: each C function the claims touch is
translated into a pure Lean function over an explicit state.  Machine bytes
(`uint8_t`) are `Nat` values reduced `% 256` at the point where the C reads a
byte from raw memory; C `int` return codes are `Int` with the usual negative
errno convention.  External collaborators (the BLE stack, the identity store,
the clock) are passed in as explicit parameters: a raw notification payload is
the function `Nat → Nat` of the bytes reachable from the data pointer, the
identity store's answer is an `Int` index, the per-connection security level is
a function `Nat → Nat`, and `k_uptime_get()` is a `now : Nat` argument.

Event emissions (`k_msgq_put` + `k_work_submit` pairs on the inbound queues)
are modelled as the list of events a call attempts to enqueue, in program
order; the one bounded queue whose capacity behaviour is itself under test
(the outbound run-behavior queue) is modelled explicitly as `k_msgq`.
-/

set_option linter.unusedVariables false

namespace ZmkSplitCentral

/-! ## Constants (errno values, byte-layout constants, security levels) -/

def EINVAL : Int := 22
def ENOMEM : Int := 12
def EAGAIN : Int := 11
def ENOTCONN : Int := 107

/-- `#define POSITION_STATE_DATA_LEN 16` (central.c line 38). -/
def POSITION_STATE_DATA_LEN : Nat := 16

/-- `BT_SECURITY_L2` of the Zephyr security-level enum (L0 = 0, L1 = 1, L2 = 2, ...). -/
def BT_SECURITY_L2 : Nat := 2

/-! ## Data model -/

/-- `enum peripheral_slot_state` (central.c lines 40-44). -/
inductive peripheral_slot_state
  | PERIPHERAL_SLOT_STATE_OPEN
  | PERIPHERAL_SLOT_STATE_CONNECTING
  | PERIPHERAL_SLOT_STATE_CONNECTED
deriving DecidableEq, Repr

open peripheral_slot_state

/-- Build-time configuration flags that gate fields and branches of central.c:
`ZMK_KEYMAP_HAS_SENSORS`, `CONFIG_ZMK_SPLIT_PERIPHERAL_HID_INDICATORS`,
`CONFIG_ZMK_SPLIT_BLE_CENTRAL_BATTERY_LEVEL_FETCHING`. -/
structure kconfig where
  keymap_has_sensors : Bool
  peripheral_hid_indicators : Bool
  battery_level_fetching : Bool
deriving DecidableEq, Repr

/-- `struct peripheral_slot` (central.c lines 46-66).  Of the nested GATT
parameter blocks only the discovered value handles are retained (they are the
only parts the module itself reads back); the connection pointer is an opaque
`Option Nat` handle.  Fields that are compiled out when a configuration flag is
off simply stay at their zero-initialized value in that case. -/
structure peripheral_slot where
  state : peripheral_slot_state
  conn : Option Nat
  /-- `subscribe_params.value_handle`: the position-state characteristic. -/
  subscribe_value_handle : Nat
  /-- `sensor_subscribe_params.value_handle` (only with `ZMK_KEYMAP_HAS_SENSORS`). -/
  sensor_subscribe_value_handle : Nat
  /-- `batt_lvl_subscribe_params.value_handle` (only with battery fetching enabled). -/
  batt_lvl_subscribe_value_handle : Nat
  run_behavior_handle : Nat
  /-- `update_hid_indicators` (only with HID indicators enabled). -/
  update_hid_indicators : Nat
  selected_physical_layout_handle : Nat
  update_layers_handle : Nat
  position_state : List Nat
  changed_positions : List Nat
deriving DecidableEq, Repr

/-- The zero-initialized slot: `static struct peripheral_slot peripherals[...]`
starts with state 0 = OPEN, null conn, zero handles and zero bitmaps. -/
instance : Inhabited peripheral_slot :=
  ⟨{ state := PERIPHERAL_SLOT_STATE_OPEN
     conn := none
     subscribe_value_handle := 0
     sensor_subscribe_value_handle := 0
     batt_lvl_subscribe_value_handle := 0
     run_behavior_handle := 0
     update_hid_indicators := 0
     selected_physical_layout_handle := 0
     update_layers_handle := 0
     position_state := List.replicate POSITION_STATE_DATA_LEN 0
     changed_positions := List.replicate POSITION_STATE_DATA_LEN 0 }⟩

/-- Modelled from the spec: the position-changed domain event
(`struct zmk_position_state_changed`, header not in src/): source slot,
position index, pressed flag, timestamp. -/
structure zmk_position_state_changed where
  source : Nat
  position : Nat
  state : Bool
  timestamp : Nat
deriving DecidableEq, Repr

/-- Modelled from the spec: the peripheral battery domain event
(`struct zmk_peripheral_battery_state_changed`, header not in src/):
source slot (a `uint8_t`) and state of charge percentage. -/
structure zmk_peripheral_battery_state_changed where
  source : Nat
  state_of_charge : Nat
deriving DecidableEq, Repr

/-- Return value of GATT iteration callbacks: `BT_GATT_ITER_STOP` /
`BT_GATT_ITER_CONTINUE`. -/
inductive bt_gatt_iter
  | BT_GATT_ITER_STOP
  | BT_GATT_ITER_CONTINUE
deriving DecidableEq, Repr

open bt_gatt_iter

/-! ## Slot lookup -/

/-- `peripheral_slot_index_for_conn` (central.c lines 87-95): linear scan of the
slot table for the matching connection pointer, `-EINVAL` when absent. -/
def peripheral_slot_index_for_conn (peripherals : List peripheral_slot) (conn : Nat) : Int :=
  match (List.range peripherals.length).find?
      (fun i => (peripherals.getD i default).conn = some conn) with
  | some i => (i : Int)
  | none => -EINVAL

/-! ## The bit-loop shared by the position decoder and slot release -/

/-- The double loop
`for (i = 0..15) for (j = 0..7) if (bytes[i] & BIT(j)) emit(i*8+j, pressed i j)`
that appears verbatim in `release_peripheral_slot` (central.c lines 126-139,
with `pressed = fun _ _ => false`) and in `split_central_notify_func`
(central.c lines 261-276, with `pressed i j` = bit `j` of the freshly stored
`position_state[i]`). -/
def peripheral_bitmap_events (src : Nat) (bytes : List Nat) (pressed : Nat → Nat → Bool)
    (now : Nat) : List zmk_position_state_changed :=
  (List.range POSITION_STATE_DATA_LEN).flatMap fun i =>
    (List.range 8).filterMap fun j =>
      if (bytes.getD i 0).testBit j then
        some { source := src, position := i * 8 + j, state := pressed i j, timestamp := now }
      else none

/-! ## Slot registry operations -/

/-- `release_peripheral_slot` (central.c lines 106-156).  Returns the updated
slot table, the position-changed events enqueued (one per set bit of the
slot's position bitmap, pressed = false, emitted before the bitmap is
zeroed), and the C return code. -/
def release_peripheral_slot (peripherals : List peripheral_slot) (index : Int) (now : Nat) :
    List peripheral_slot × List zmk_position_state_changed × Int :=
  if index < 0 ∨ (peripherals.length : Int) ≤ index then (peripherals, [], -EINVAL)
  else
    let i := index.toNat
    let slot := peripherals.getD i default
    if slot.state = PERIPHERAL_SLOT_STATE_OPEN then (peripherals, [], -EINVAL)
    else
      let events := peripheral_bitmap_events i slot.position_state (fun _ _ => false) now
      let slot' := { slot with
        conn := none
        state := PERIPHERAL_SLOT_STATE_OPEN
        position_state := List.replicate POSITION_STATE_DATA_LEN 0
        changed_positions := List.replicate POSITION_STATE_DATA_LEN 0
        subscribe_value_handle := 0
        run_behavior_handle := 0
        selected_physical_layout_handle := 0
        update_hid_indicators := 0
        update_layers_handle := 0 }
      (peripherals.set i slot', events, 0)

/-- `reserve_peripheral_slot` (central.c lines 158-170).  The identity store
`zmk_ble_put_peripheral_addr(addr)` is external; its answer is the
`store_result` parameter (a valid slot index, or negative when no binding is
free).  Note the C: when the bound slot is already `OPEN` it calls
`release_peripheral_slot` (which then returns `-EINVAL` without side effects)
and marks the slot `CONNECTING`; when the bound slot is *not* `OPEN` the
function falls through to `return -ENOMEM`. -/
def reserve_peripheral_slot (peripherals : List peripheral_slot) (store_result : Int)
    (now : Nat) : List peripheral_slot × List zmk_position_state_changed × Int :=
  if 0 ≤ store_result then
    let i := store_result.toNat
    if (peripherals.getD i default).state = PERIPHERAL_SLOT_STATE_OPEN then
      let r := release_peripheral_slot peripherals store_result now
      (r.1.set i { r.1.getD i default with state := PERIPHERAL_SLOT_STATE_CONNECTING },
        r.2.1, store_result)
    else (peripherals, [], -ENOMEM)
  else (peripherals, [], -ENOMEM)

/-- `release_peripheral_slot_for_conn` (central.c lines 172-179). -/
def release_peripheral_slot_for_conn (peripherals : List peripheral_slot) (conn : Nat)
    (now : Nat) : List peripheral_slot × List zmk_position_state_changed × Int :=
  let idx := peripheral_slot_index_for_conn peripherals conn
  if idx < 0 then (peripherals, [], idx)
  else release_peripheral_slot peripherals idx now

/-! ## Position-state notification decoder -/

/-- `split_central_notify_func` (central.c lines 237-279), for a connection
whose slot lookup succeeded (slot index `src`).  `data = none` is the
subscription-teardown signal (null payload): it clears the position-state
value handle and stops.  Otherwise `d : Nat → Nat` are the bytes reachable
from the data pointer; note that, exactly as in the C, the `length` parameter
is never consulted: the loops read `POSITION_STATE_DATA_LEN` bytes
unconditionally.  Returns (updated slot, events enqueued, iterator result). -/
def split_central_notify_func (slot : peripheral_slot) (src : Nat) (data : Option (Nat → Nat))
    (length now : Nat) : peripheral_slot × List zmk_position_state_changed × bt_gatt_iter :=
  match data with
  | none => ({ slot with subscribe_value_handle := 0 }, [], BT_GATT_ITER_STOP)
  | some d =>
    let changed := (List.range POSITION_STATE_DATA_LEN).map fun i =>
      (d i % 256) ^^^ (slot.position_state.getD i 0)
    let incoming := (List.range POSITION_STATE_DATA_LEN).map fun i => d i % 256
    let events := peripheral_bitmap_events src changed
      (fun i j => (incoming.getD i 0).testBit j) now
    ({ slot with changed_positions := changed, position_state := incoming },
      events, BT_GATT_ITER_CONTINUE)

/-! ## Sensor notification decoder -/

/-- Modelled from the spec: the wire layout of `struct sensor_event`
(`zmk/split/bluetooth/service.h`, not in src/): a one-byte sensor index, a
one-byte channel count, then the channel-data tail, so
`offsetof(struct sensor_event, channel_data) = 2`.  `channel_mem k` is the
`k`-th channel-data entry as laid out in memory after the header (whatever
bytes happen to be there, in or out of the received payload). -/
structure sensor_event_wire where
  sensor_index : Nat
  channel_data_size : Nat
  channel_mem : Nat → Nat

/-- Modelled from the spec: the sensor domain event (`struct zmk_sensor_event`,
header not in src/): sensor index, channel count, channel data (capacity
`ZMK_SENSOR_EVENT_MAX_CHANNELS` entries in C), timestamp. -/
structure zmk_sensor_event where
  sensor_index : Nat
  channel_data_size : Nat
  channel_data : List Nat
  timestamp : Nat
deriving DecidableEq, Repr

/-- `split_central_sensor_notify_func` (central.c lines 205-234).
`maxChannels` is `ZMK_SENSOR_EVENT_MAX_CHANNELS`.  Note the two copies of the
C: the event's `channel_data_size` *field* is truncated with
`MIN(sensor_event.channel_data_size, ZMK_SENSOR_EVENT_MAX_CHANNELS)`, but the
`memcpy` into `ev.channel_data` is sized by the *untruncated*
`sensor_event.channel_data_size`; the model therefore copies
`w.channel_data_size` entries. -/
def split_central_sensor_notify_func (maxChannels : Nat) (data : Option sensor_event_wire)
    (length now : Nat) : bt_gatt_iter × List zmk_sensor_event :=
  match data with
  | none => (BT_GATT_ITER_STOP, [])
  | some w =>
    if length < 2 then (BT_GATT_ITER_STOP, [])
    else
      let ev : zmk_sensor_event := {
        sensor_index := w.sensor_index
        channel_data_size := min w.channel_data_size maxChannels
        channel_data := (List.range w.channel_data_size).map w.channel_mem
        timestamp := now }
      (BT_GATT_ITER_CONTINUE, [ev])

/-! ## Peripheral battery level query -/

/-- `zmk_split_get_peripheral_battery_level` (central.c lines 285-296).
`battery_levels` models `static uint8_t peripheral_battery_levels[...]`, an
array of the same length as the slot table
(`ZMK_SPLIT_BLE_PERIPHERAL_COUNT`).  Returns `Except` instead of writing
through an out-pointer. -/
def zmk_split_get_peripheral_battery_level (peripherals : List peripheral_slot)
    (battery_levels : List Nat) (source : Nat) : Except Int Nat :=
  if battery_levels.length ≤ source then .error (-EINVAL)
  else if (peripherals.getD source default).state ≠ PERIPHERAL_SLOT_STATE_CONNECTED then
    .error (-ENOTCONN)
  else .ok (battery_levels.getD source 0)

/-! ## Outbound writes: layout selection and HID indicators -/

/-- A call to `bt_gatt_write_without_response(conn, handle, &value, ...)`:
the observable transport write. -/
structure gatt_write where
  conn : Nat
  handle : Nat
  value : Nat
deriving DecidableEq, Repr

/-- `update_peripheral_selected_layout` (central.c lines 402-426).
`security` is `bt_conn_get_security` of the external stack, as a map from
connection handle to established security level.  Returns the C return code
and the transport writes performed (the write itself is assumed to succeed;
the claims only observe whether a transport call happens). -/
def update_peripheral_selected_layout (security : Nat → Nat) (slot : peripheral_slot)
    (layout_idx : Nat) : Int × List gatt_write :=
  if slot.state ≠ PERIPHERAL_SLOT_STATE_CONNECTED then (-ENOTCONN, [])
  else if slot.selected_physical_layout_handle = 0 then (-EAGAIN, [])
  else if security (slot.conn.getD 0) < BT_SECURITY_L2 then (-EAGAIN, [])
  else (0, [{ conn := slot.conn.getD 0, handle := slot.selected_physical_layout_handle,
              value := layout_idx }])

/-- `update_peripherals_selected_physical_layout` (central.c lines 428-437):
the broadcast worker; skips non-Connected slots, ignores per-slot results.
Returns all transport writes performed. -/
def update_peripherals_selected_physical_layout (security : Nat → Nat)
    (peripherals : List peripheral_slot) (layout_idx : Nat) : List gatt_write :=
  peripherals.flatMap fun s =>
    if s.state ≠ PERIPHERAL_SLOT_STATE_CONNECTED then []
    else (update_peripheral_selected_layout security s layout_idx).2

/-- `split_central_update_indicators_callback` (central.c lines 917-939): the
broadcast indicator worker.  It skips slots that are not Connected or whose
`update_hid_indicators` handle is unresolved, and then writes — the C performs
no `bt_conn_get_security` check on this path (the `security` parameter is
kept in the signature to make that visible). -/
def split_central_update_indicators_callback (security : Nat → Nat)
    (peripherals : List peripheral_slot) (indicators : Nat) : List gatt_write :=
  peripherals.flatMap fun s =>
    if s.state ≠ PERIPHERAL_SLOT_STATE_CONNECTED then []
    else if s.update_hid_indicators = 0 then []
    else [{ conn := s.conn.getD 0, handle := s.update_hid_indicators, value := indicators }]

/-! ## Characteristic discovery -/

/-- The fixed table of split-protocol characteristic UUIDs central.c compares
against (plus `OTHER_UUID` for any characteristic not in the table). -/
inductive split_chrc_uuid
  | POSITION_STATE
  | SENSOR_STATE
  | RUN_BEHAVIOR
  | SELECT_PHYS_LAYOUT
  | UPDATE_HID_INDICATORS
  | UPDATE_LAYERS
  | BAS_BATTERY_LEVEL
  | OTHER_UUID
deriving DecidableEq, Repr

open split_chrc_uuid

/-- A discovered attribute as seen by the characteristic-discovery callback:
its declaration handle and its `user_data` (the characteristic UUID, absent
when the stack passed no user data). -/
structure bt_gatt_attr where
  handle : Nat
  user_data : Option split_chrc_uuid
deriving DecidableEq, Repr

/-- `bt_gatt_attr_value_handle`: the value handle of a characteristic
declaration attribute is the next handle. -/
def bt_gatt_attr_value_handle (attr : bt_gatt_attr) : Nat := attr.handle + 1

/-- The completeness conjunction recomputed at the end of
`split_central_chrc_discovery_func` (central.c lines 526-540, local variable
`subscribed`): the mandatory position-state (`subscribe_params.value_handle`),
run-behavior, layout-select and layer-update handles, plus each
configuration-enabled optional handle, must all be non-zero. -/
def discovery_complete (cfg : kconfig) (slot : peripheral_slot) : Bool :=
  (slot.run_behavior_handle != 0 && slot.subscribe_value_handle != 0 &&
    slot.selected_physical_layout_handle != 0) &&
  (!cfg.keymap_has_sensors || slot.sensor_subscribe_value_handle != 0) &&
  (!cfg.peripheral_hid_indicators || slot.update_hid_indicators != 0) &&
  (!cfg.battery_level_fetching || slot.batt_lvl_subscribe_value_handle != 0) &&
  (slot.update_layers_handle != 0)

/-- `split_central_chrc_discovery_func` (central.c lines 442-543), at slot
granularity (the slot lookup by connection is done by the caller; a failed
lookup, a null `attr`, or a null `attr->user_data` each return `STOP`).  The
UUID dispatch chain resolves the matching handle (branches for sensor, HID
indicators and battery exist only when the corresponding flag is compiled
in); subscription issuance and discovery-range narrowing are external GATT
bookkeeping with no bearing on the returned iterator signal.  After the
dispatch, completeness is recomputed and iteration stops exactly when it
holds. -/
def split_central_chrc_discovery_func (cfg : kconfig) (slot : peripheral_slot)
    (attr : Option bt_gatt_attr) : peripheral_slot × bt_gatt_iter :=
  match attr with
  | none => (slot, BT_GATT_ITER_STOP)
  | some a =>
    match a.user_data with
    | none => (slot, BT_GATT_ITER_STOP)
    | some uuid =>
      let slot' :=
        if uuid = POSITION_STATE then
          { slot with subscribe_value_handle := bt_gatt_attr_value_handle a }
        else if cfg.keymap_has_sensors ∧ uuid = SENSOR_STATE then
          { slot with sensor_subscribe_value_handle := bt_gatt_attr_value_handle a }
        else if uuid = RUN_BEHAVIOR then
          { slot with run_behavior_handle := bt_gatt_attr_value_handle a }
        else if uuid = SELECT_PHYS_LAYOUT then
          { slot with selected_physical_layout_handle := bt_gatt_attr_value_handle a }
        else if cfg.peripheral_hid_indicators ∧ uuid = UPDATE_HID_INDICATORS then
          { slot with update_hid_indicators := bt_gatt_attr_value_handle a }
        else if uuid = UPDATE_LAYERS then
          { slot with update_layers_handle := bt_gatt_attr_value_handle a }
        else if cfg.battery_level_fetching ∧ uuid = BAS_BATTERY_LEVEL then
          { slot with batt_lvl_subscribe_value_handle := bt_gatt_attr_value_handle a }
        else slot
      (slot', if discovery_complete cfg slot' then BT_GATT_ITER_STOP else BT_GATT_ITER_CONTINUE)

/-! ## Disconnect handler -/

/-- `split_central_disconnected` (central.c lines 777-799).  Enqueues the
synthetic zero-percentage battery event (when battery fetching is compiled
in; the `uint8_t` source field receives the `int` slot index reduced mod 256),
then releases the slot for the connection, then calls `start_scanning()` —
modelled as the returned `Bool` — exactly when the release did not fail.
Returns (slot table, battery events, position events, scanning-resumed). -/
def split_central_disconnected (cfg : kconfig) (peripherals : List peripheral_slot)
    (conn : Nat) (now : Nat) :
    List peripheral_slot × List zmk_peripheral_battery_state_changed ×
      List zmk_position_state_changed × Bool :=
  ((release_peripheral_slot_for_conn peripherals conn now).1,
    (if cfg.battery_level_fetching then
      [{ source := ((peripheral_slot_index_for_conn peripherals conn) % 256).toNat,
         state_of_charge := 0 }] else []),
    (release_peripheral_slot_for_conn peripherals conn now).2.1,
    decide (0 ≤ (release_peripheral_slot_for_conn peripherals conn now).2.2))

/-! ## Outbound run-behavior queue -/

/-- `struct zmk_split_run_behavior_payload.data` (service.h, layout per spec
section 6: two parameters, position, source, pressed flag). -/
structure zmk_split_run_behavior_data where
  param1 : Nat
  param2 : Nat
  position : Nat
  source : Nat
  state : Nat
deriving DecidableEq, Repr

/-- `struct zmk_split_run_behavior_payload` (service.h): the data block plus
the null-terminated behavior device label. -/
structure zmk_split_run_behavior_payload where
  data : zmk_split_run_behavior_data
  behavior_dev : String
deriving DecidableEq, Repr

/-- `struct zmk_split_run_behavior_payload_wrapper` (central.c lines 832-835). -/
structure zmk_split_run_behavior_payload_wrapper where
  source : Nat
  payload : zmk_split_run_behavior_payload
deriving DecidableEq, Repr

/-- A Zephyr bounded message queue (`K_MSGQ_DEFINE`): fixed capacity, FIFO
items, oldest at the head. -/
structure k_msgq (α : Type) where
  capacity : Nat
  items : List α
deriving DecidableEq, Repr

/-- `k_msgq_put`: appends when there is room, otherwise fails with `-EAGAIN`
(in the single-producer sequential model a full queue stays full for the
whole `K_MSEC(100)` wait, so the timed put of central.c line 873 times out). -/
def k_msgq_put {α : Type} (q : k_msgq α) (item : α) : k_msgq α × Int :=
  if q.items.length < q.capacity then ({ q with items := q.items ++ [item] }, 0)
  else (q, -EAGAIN)

/-- `k_msgq_get` with `K_NO_WAIT`: pops the oldest item if any. -/
def k_msgq_get {α : Type} (q : k_msgq α) : k_msgq α × Option α :=
  match q.items with
  | [] => (q, none)
  | x :: rest => ({ q with items := rest }, some x)

/-- `split_bt_invoke_behavior_payload` (central.c lines 869-891).  The C
retries by direct recursion after popping the oldest entry on `-EAGAIN`; the
recursion is modelled with explicit `fuel` (one unit per attempt), `none`
meaning the attempt budget was exhausted.  On success the behavior-run worker
is submitted to the dedicated queue; the returned `Nat` counts those
`k_work_submit_to_queue` calls.  Returns (queue, return code, submissions). -/
def split_bt_invoke_behavior_payload (fuel : Nat)
    (q : k_msgq zmk_split_run_behavior_payload_wrapper)
    (w : zmk_split_run_behavior_payload_wrapper) :
    Option (k_msgq zmk_split_run_behavior_payload_wrapper × Int × Nat) :=
  match fuel with
  | 0 => none
  | fuel + 1 =>
    let r := k_msgq_put q w
    if r.2 = 0 then some (r.1, 0, 1)
    else if r.2 = -EAGAIN then
      let g := k_msgq_get r.1
      split_bt_invoke_behavior_payload fuel g.1 w
    else some (r.1, r.2, 0)

/-! ## Lemmas about the bit loops -/

theorem filterMap_flatMap_eq {α β γ : Type} (l : List α) (g : α → List β) (f : β → Option γ) :
    (l.flatMap g).filterMap f = l.flatMap fun a => (g a).filterMap f := by
  induction l with
  | nil => rfl
  | cons a l ih => simp only [List.flatMap_cons, List.filterMap_append, ih]

theorem filterMap_ite_id {α : Type} (c : α → Bool) (l : List α) :
    (l.filterMap fun a => if c a then some a else none) = l.filter c := by
  induction l with
  | nil => rfl
  | cons x xs ih =>
    by_cases h : c x = true <;> simp [List.filterMap_cons, List.filter_cons, h, ih]

theorem bool_xor_eq_true_iff (a b : Bool) : (a ^^ b) = true ↔ a ≠ b := by
  cases a <;> cases b <;> simp

theorem getD_map_range (f : Nat → Nat) (n i : Nat) (h : i < n) :
    ((List.range n).map f).getD i 0 = f i := by
  rw [List.getD_eq_getElem?_getD, List.getElem?_map, List.getElem?_range h]
  rfl

theorem range_16_8_flatMap :
    ((List.range 16).flatMap fun i => (List.range 8).map fun j => i * 8 + j) =
      List.range 128 := by decide

/-- The per-position view of one iteration of the double bit loop. -/
def bitmap_event_at (src : Nat) (bytes : List Nat) (pressed : Nat → Nat → Bool)
    (now p : Nat) : Option zmk_position_state_changed :=
  if (bytes.getD (p / 8) 0).testBit (p % 8) then
    some { source := src, position := p, state := pressed (p / 8) (p % 8), timestamp := now }
  else none

theorem peripheral_bitmap_events_eq (src : Nat) (bytes : List Nat)
    (pressed : Nat → Nat → Bool) (now : Nat) :
    peripheral_bitmap_events src bytes pressed now =
      (List.range 128).filterMap (bitmap_event_at src bytes pressed now) := by
  have h1 : ∀ i : Nat,
      ((List.range 8).filterMap fun j =>
        if (bytes.getD i 0).testBit j then
          some { source := src, position := i * 8 + j, state := pressed i j,
                 timestamp := now }
        else none) =
      ((List.range 8).map fun j => i * 8 + j).filterMap
        (bitmap_event_at src bytes pressed now) := by
    intro i
    rw [List.filterMap_map]
    apply List.filterMap_congr
    intro j hj
    have hj8 : j < 8 := List.mem_range.mp hj
    have hdiv : (i * 8 + j) / 8 = i := by omega
    have hmod : (i * 8 + j) % 8 = j := by omega
    simp [bitmap_event_at, Function.comp, hdiv, hmod]
  simp only [peripheral_bitmap_events, POSITION_STATE_DATA_LEN, h1]
  rw [← filterMap_flatMap_eq, range_16_8_flatMap]

theorem mem_peripheral_bitmap_events {src : Nat} {bytes : List Nat}
    {pressed : Nat → Nat → Bool} {now : Nat} {e : zmk_position_state_changed} :
    e ∈ peripheral_bitmap_events src bytes pressed now ↔
      ∃ p, p < 128 ∧ (bytes.getD (p / 8) 0).testBit (p % 8) = true ∧
        e = { source := src, position := p, state := pressed (p / 8) (p % 8),
              timestamp := now } := by
  rw [peripheral_bitmap_events_eq]
  simp only [List.mem_filterMap, List.mem_range, bitmap_event_at,
    Option.ite_none_right_eq_some, Option.some.injEq]
  constructor
  · rintro ⟨p, hp, hbit, he⟩
    exact ⟨p, hp, hbit, he.symm⟩
  · rintro ⟨p, hp, hbit, he⟩
    exact ⟨p, hp, hbit, he.symm⟩

theorem peripheral_bitmap_events_map_position (src : Nat) (bytes : List Nat)
    (pressed : Nat → Nat → Bool) (now : Nat) :
    (peripheral_bitmap_events src bytes pressed now).map (fun e => e.position) =
      (List.range 128).filter fun p => (bytes.getD (p / 8) 0).testBit (p % 8) := by
  rw [peripheral_bitmap_events_eq, List.map_filterMap]
  have h : (fun p => Option.map (fun e => e.position)
      (bitmap_event_at src bytes pressed now p)) =
      fun p => if (bytes.getD (p / 8) 0).testBit (p % 8) then some p else none := by
    funext p
    simp [bitmap_event_at, apply_ite]
  rw [h, filterMap_ite_id]

theorem peripheral_bitmap_events_nodup (src : Nat) (bytes : List Nat)
    (pressed : Nat → Nat → Bool) (now : Nat) :
    (peripheral_bitmap_events src bytes pressed now).Nodup := by
  apply List.Nodup.of_map (fun e => e.position)
  rw [peripheral_bitmap_events_map_position]
  exact List.Nodup.filter _ (List.nodup_range 128)

theorem count_peripheral_bitmap_events (src : Nat) (bytes : List Nat)
    (pressed : Nat → Nat → Bool) (now p : Nat) (hp : p < 128)
    (hbit : (bytes.getD (p / 8) 0).testBit (p % 8) = true) :
    (peripheral_bitmap_events src bytes pressed now).count
      { source := src, position := p, state := pressed (p / 8) (p % 8),
        timestamp := now } = 1 :=
  List.count_eq_one_of_mem (peripheral_bitmap_events_nodup src bytes pressed now)
    (mem_peripheral_bitmap_events.mpr ⟨p, hp, hbit, rfl⟩)

theorem peripheral_bitmap_events_eq_nil (src : Nat) (bytes : List Nat)
    (pressed : Nat → Nat → Bool) (now : Nat)
    (h : ∀ p, p < 128 → (bytes.getD (p / 8) 0).testBit (p % 8) = false) :
    peripheral_bitmap_events src bytes pressed now = [] := by
  rw [peripheral_bitmap_events_eq, List.filterMap_eq_nil_iff]
  intro p hp
  simp only [bitmap_event_at, h p (List.mem_range.mp hp)]
  rfl

/-! ## Lemmas about the position decoder's byte arrays -/

theorem incoming_getD_testBit (d : Nat → Nat) (i j : Nat) (hi : i < 16) (hj : j < 8) :
    ((((List.range POSITION_STATE_DATA_LEN).map fun i => d i % 256).getD i 0).testBit j)
      = (d i).testBit j := by
  rw [show POSITION_STATE_DATA_LEN = 16 from rfl, getD_map_range _ 16 _ hi]
  rw [show (256 : Nat) = 2 ^ 8 from by norm_num, Nat.testBit_mod_two_pow]
  simp [hj]

theorem changed_getD_testBit (A : List Nat) (d : Nat → Nat) (i j : Nat)
    (hi : i < 16) (hj : j < 8) :
    ((((List.range POSITION_STATE_DATA_LEN).map fun i =>
        (d i % 256) ^^^ (A.getD i 0)).getD i 0).testBit j)
      = ((d i).testBit j ^^ (A.getD i 0).testBit j) := by
  rw [show POSITION_STATE_DATA_LEN = 16 from rfl, getD_map_range _ 16 _ hi, Nat.testBit_xor]
  congr 1
  rw [show (256 : Nat) = 2 ^ 8 from by norm_num, Nat.testBit_mod_two_pow]
  simp [hj]

/-! ## Claim C1 -/

/-- C1: for every slot and every incoming 16-byte position-bitmap snapshot
(previous snapshot A = the slot's stored `position_state`, incoming snapshot
B = the payload bytes `d`), `split_central_notify_func` emits exactly one
position-changed event for each bit index where A and B differ, with
`pressed` equal to that bit's value in B and position = byte_index*8 +
bit_index (little-endian bit order within each byte, byte 0 holding positions
0-7); it emits no event for unchanged bits; it stores B as the new previous
snapshot; and delivering the same snapshot again emits nothing the second
time. -/
theorem C1_position_diff_events (slot : peripheral_slot) (src : Nat) (d : Nat → Nat)
    (length now : Nat) :
    (∀ e, e ∈ (split_central_notify_func slot src (some d) length now).2.1 ↔
      ∃ i, i < 16 ∧ ∃ j, j < 8 ∧
        (slot.position_state.getD i 0).testBit j ≠ (d i).testBit j ∧
        e = { source := src, position := i * 8 + j, state := (d i).testBit j,
              timestamp := now }) ∧
    (∀ i, i < 16 → ∀ j, j < 8 →
      (slot.position_state.getD i 0).testBit j ≠ (d i).testBit j →
      (split_central_notify_func slot src (some d) length now).2.1.count
        { source := src, position := i * 8 + j, state := (d i).testBit j,
          timestamp := now } = 1) ∧
    (∀ i, i < 16 → ∀ j, j < 8 →
      (slot.position_state.getD i 0).testBit j = (d i).testBit j →
      ∀ e, e ∈ (split_central_notify_func slot src (some d) length now).2.1 →
        e.position ≠ i * 8 + j) ∧
    (∀ i, i < 16 →
      (split_central_notify_func slot src (some d) length now).1.position_state.getD i 0
        = d i % 256) ∧
    (split_central_notify_func (split_central_notify_func slot src (some d) length now).1
      src (some d) length now).2.1 = [] := by
  have hev : (split_central_notify_func slot src (some d) length now).2.1 =
      peripheral_bitmap_events src
        ((List.range POSITION_STATE_DATA_LEN).map fun i =>
          (d i % 256) ^^^ (slot.position_state.getD i 0))
        (fun i j =>
          (((List.range POSITION_STATE_DATA_LEN).map fun i => d i % 256).getD i 0).testBit j)
        now := rfl
  have hstore : (split_central_notify_func slot src (some d) length now).1.position_state =
      (List.range POSITION_STATE_DATA_LEN).map fun i => d i % 256 := rfl
  have hmem : ∀ e, e ∈ (split_central_notify_func slot src (some d) length now).2.1 ↔
      ∃ i, i < 16 ∧ ∃ j, j < 8 ∧
        (slot.position_state.getD i 0).testBit j ≠ (d i).testBit j ∧
        e = { source := src, position := i * 8 + j, state := (d i).testBit j,
              timestamp := now } := by
    intro e
    rw [hev, mem_peripheral_bitmap_events]
    constructor
    · rintro ⟨p, hp, hbit, rfl⟩
      have h16 : p / 8 < 16 := by omega
      have h8 : p % 8 < 8 := by omega
      refine ⟨p / 8, h16, p % 8, h8, ?_, ?_⟩
      · rw [changed_getD_testBit slot.position_state d _ _ h16 h8] at hbit
        have hne := (bool_xor_eq_true_iff _ _).mp hbit
        exact fun h => hne h.symm
      · simp only [show p / 8 * 8 + p % 8 = p from by omega,
          incoming_getD_testBit d (p / 8) (p % 8) h16 h8]
    · rintro ⟨i, hi, j, hj, hne, rfl⟩
      have hdiv : (i * 8 + j) / 8 = i := by omega
      have hmod : (i * 8 + j) % 8 = j := by omega
      refine ⟨i * 8 + j, by omega, ?_, ?_⟩
      · rw [hdiv, hmod, changed_getD_testBit slot.position_state d i j hi hj]
        exact (bool_xor_eq_true_iff _ _).mpr fun h => hne h.symm
      · simp only [hdiv, hmod, incoming_getD_testBit d i j hi hj]
  refine ⟨hmem, ?_, ?_, ?_, ?_⟩
  · intro i hi j hj hne
    have hdiv : (i * 8 + j) / 8 = i := by omega
    have hmod : (i * 8 + j) % 8 = j := by omega
    have hbit : ((((List.range POSITION_STATE_DATA_LEN).map fun i =>
        (d i % 256) ^^^ (slot.position_state.getD i 0)).getD ((i * 8 + j) / 8) 0).testBit
          ((i * 8 + j) % 8)) = true := by
      rw [hdiv, hmod, changed_getD_testBit slot.position_state d i j hi hj]
      exact (bool_xor_eq_true_iff _ _).mpr fun h => hne h.symm
    have hc := count_peripheral_bitmap_events src
      ((List.range POSITION_STATE_DATA_LEN).map fun i =>
        (d i % 256) ^^^ (slot.position_state.getD i 0))
      (fun i j =>
        (((List.range POSITION_STATE_DATA_LEN).map fun i => d i % 256).getD i 0).testBit j)
      now (i * 8 + j) (by omega) hbit
    simp only [hdiv, hmod, incoming_getD_testBit d i j hi hj] at hc
    rw [hev]
    exact hc
  · intro i hi j hj heq e hmem' hpos
    rcases (hmem e).mp hmem' with ⟨i', hi', j', hj', hne', rfl⟩
    have : i' = i ∧ j' = j := by
      simp only at hpos
      omega
    rcases this with ⟨rfl, rfl⟩
    exact hne' heq
  · intro i hi
    rw [hstore, show POSITION_STATE_DATA_LEN = 16 from rfl, getD_map_range _ 16 _ hi]
  · have hev2 : (split_central_notify_func
        (split_central_notify_func slot src (some d) length now).1 src
        (some d) length now).2.1 =
        peripheral_bitmap_events src
          ((List.range POSITION_STATE_DATA_LEN).map fun i =>
            (d i % 256) ^^^
              ((split_central_notify_func slot src
                (some d) length now).1.position_state.getD i 0))
          (fun i j =>
            (((List.range POSITION_STATE_DATA_LEN).map fun i => d i % 256).getD i 0).testBit j)
          now := rfl
    rw [hev2]
    apply peripheral_bitmap_events_eq_nil
    intro p hp
    have h16 : p / 8 < 16 := by omega
    rw [show POSITION_STATE_DATA_LEN = 16 from rfl, getD_map_range _ 16 _ h16, hstore,
      show POSITION_STATE_DATA_LEN = 16 from rfl, getD_map_range _ 16 _ h16, Nat.xor_self]
    exact Nat.zero_testBit _

/-- Witness for C1: all-zero previous snapshot, incoming bytes all `0x01`
(declared length 16): exactly one event is emitted for position 0. -/
theorem C1_position_diff_events_witness :
    (split_central_notify_func default 0 (some fun _ => 1) 16 0).2.1.count
      { source := 0, position := 0, state := true, timestamp := 0 } = 1 := by
  have h := (C1_position_diff_events default 0 (fun _ => 1) 16 0).2.1 0 (by decide) 0
    (by decide) (by decide)
  exact h

/-! ## Bit-loop lemmas in byte/bit form -/

theorem mem_peripheral_bitmap_events_ij {src : Nat} {bytes : List Nat}
    {pressed : Nat → Nat → Bool} {now : Nat} {e : zmk_position_state_changed} :
    e ∈ peripheral_bitmap_events src bytes pressed now ↔
      ∃ i, i < 16 ∧ ∃ j, j < 8 ∧ (bytes.getD i 0).testBit j = true ∧
        e = { source := src, position := i * 8 + j, state := pressed i j,
              timestamp := now } := by
  rw [mem_peripheral_bitmap_events]
  constructor
  · rintro ⟨p, hp, hbit, rfl⟩
    exact ⟨p / 8, by omega, p % 8, by omega, hbit, by
      simp only [show p / 8 * 8 + p % 8 = p from by omega]⟩
  · rintro ⟨i, hi, j, hj, hbit, rfl⟩
    have hdiv : (i * 8 + j) / 8 = i := by omega
    have hmod : (i * 8 + j) % 8 = j := by omega
    exact ⟨i * 8 + j, by omega, by rw [hdiv, hmod]; exact hbit, by simp only [hdiv, hmod]⟩

theorem count_peripheral_bitmap_events_ij (src : Nat) (bytes : List Nat)
    (pressed : Nat → Nat → Bool) (now i j : Nat) (hi : i < 16) (hj : j < 8)
    (hbit : (bytes.getD i 0).testBit j = true) :
    (peripheral_bitmap_events src bytes pressed now).count
      { source := src, position := i * 8 + j, state := pressed i j, timestamp := now }
      = 1 := by
  have hdiv : (i * 8 + j) / 8 = i := by omega
  have hmod : (i * 8 + j) % 8 = j := by omega
  have h := count_peripheral_bitmap_events src bytes pressed now (i * 8 + j) (by omega)
    (by rw [hdiv, hmod]; exact hbit)
  simpa only [hdiv, hmod] using h

/-! ## Reduction lemmas for release / reserve -/

theorem release_peripheral_slot_eq (peripherals : List peripheral_slot) (index now : Nat)
    (hlen : index < peripherals.length)
    (hstate : (peripherals.getD index default).state ≠ PERIPHERAL_SLOT_STATE_OPEN) :
    release_peripheral_slot peripherals index now =
      (peripherals.set index
        { peripherals.getD index default with
          conn := none
          state := PERIPHERAL_SLOT_STATE_OPEN
          position_state := List.replicate POSITION_STATE_DATA_LEN 0
          changed_positions := List.replicate POSITION_STATE_DATA_LEN 0
          subscribe_value_handle := 0
          run_behavior_handle := 0
          selected_physical_layout_handle := 0
          update_hid_indicators := 0
          update_layers_handle := 0 },
        peripheral_bitmap_events index (peripherals.getD index default).position_state
          (fun _ _ => false) now, 0) := by
  have h1 : ¬(((index : Nat) : Int) < 0 ∨ (peripherals.length : Int) ≤ ((index : Nat) : Int)) := by
    push_neg
    omega
  unfold release_peripheral_slot
  rw [if_neg h1]
  simp only [Int.toNat_natCast]
  rw [if_neg hstate]

theorem release_peripheral_slot_eq_of_open (peripherals : List peripheral_slot) (index : Int)
    (now : Nat)
    (hstate : (peripherals.getD index.toNat default).state = PERIPHERAL_SLOT_STATE_OPEN) :
    release_peripheral_slot peripherals index now = (peripherals, [], -EINVAL) := by
  unfold release_peripheral_slot
  by_cases h1 : index < 0 ∨ (peripherals.length : Int) ≤ index
  · rw [if_pos h1]
  · rw [if_neg h1]
    simp only []
    rw [if_pos hstate]

/-! ## Claim C2 -/

/-- C2: for every in-range slot index whose state is not Open,
`release_peripheral_slot` emits exactly one position-changed event with
pressed = false for each bit set in the slot's position bitmap (computed from
the bitmap before it is cleared), and afterwards the slot's position and
changed bitmaps are entirely zero, the state is Open, the discovered
position-state, run-behavior, layout-select, layers and indicators handles
are all reset to zero, and the call returns 0. -/
theorem C2_release_slot (peripherals : List peripheral_slot) (index now : Nat)
    (hlen : index < peripherals.length)
    (hstate : (peripherals.getD index default).state ≠ PERIPHERAL_SLOT_STATE_OPEN) :
    (∀ e, e ∈ (release_peripheral_slot peripherals index now).2.1 ↔
      ∃ i, i < 16 ∧ ∃ j, j < 8 ∧
        ((peripherals.getD index default).position_state.getD i 0).testBit j = true ∧
        e = { source := index, position := i * 8 + j, state := false, timestamp := now }) ∧
    (∀ i, i < 16 → ∀ j, j < 8 →
      ((peripherals.getD index default).position_state.getD i 0).testBit j = true →
      (release_peripheral_slot peripherals index now).2.1.count
        { source := index, position := i * 8 + j, state := false, timestamp := now } = 1) ∧
    ((release_peripheral_slot peripherals index now).1.getD index default).position_state
      = List.replicate 16 0 ∧
    ((release_peripheral_slot peripherals index now).1.getD index default).changed_positions
      = List.replicate 16 0 ∧
    ((release_peripheral_slot peripherals index now).1.getD index default).state
      = PERIPHERAL_SLOT_STATE_OPEN ∧
    ((release_peripheral_slot peripherals index now).1.getD index
      default).subscribe_value_handle = 0 ∧
    ((release_peripheral_slot peripherals index now).1.getD index
      default).run_behavior_handle = 0 ∧
    ((release_peripheral_slot peripherals index now).1.getD index
      default).selected_physical_layout_handle = 0 ∧
    ((release_peripheral_slot peripherals index now).1.getD index
      default).update_hid_indicators = 0 ∧
    ((release_peripheral_slot peripherals index now).1.getD index
      default).update_layers_handle = 0 ∧
    (release_peripheral_slot peripherals index now).2.2 = 0 := by
  rw [release_peripheral_slot_eq peripherals index now hlen hstate]
  have hget : ((peripherals.set index
      { peripherals.getD index default with
        conn := none
        state := PERIPHERAL_SLOT_STATE_OPEN
        position_state := List.replicate POSITION_STATE_DATA_LEN 0
        changed_positions := List.replicate POSITION_STATE_DATA_LEN 0
        subscribe_value_handle := 0
        run_behavior_handle := 0
        selected_physical_layout_handle := 0
        update_hid_indicators := 0
        update_layers_handle := 0 }).getD index default) =
      { peripherals.getD index default with
        conn := none
        state := PERIPHERAL_SLOT_STATE_OPEN
        position_state := List.replicate POSITION_STATE_DATA_LEN 0
        changed_positions := List.replicate POSITION_STATE_DATA_LEN 0
        subscribe_value_handle := 0
        run_behavior_handle := 0
        selected_physical_layout_handle := 0
        update_hid_indicators := 0
        update_layers_handle := 0 } := by
    rw [List.getD_eq_getElem?_getD, List.getElem?_set_self hlen]
    rfl
  refine ⟨fun e => @mem_peripheral_bitmap_events_ij index
      (peripherals.getD index default).position_state (fun _ _ => false) now e,
    ?_, ?_, ?_, ?_, ?_, ?_, ?_, ?_, ?_, rfl⟩
  · intro i hi j hj hbit
    exact count_peripheral_bitmap_events_ij index
      (peripherals.getD index default).position_state (fun _ _ => false) now i j hi hj hbit
  all_goals rw [hget]
  all_goals rfl

/-- Witness for C2: a connected slot with position bit 5 set is released:
one pressed = false event for position 5 and the slot returns to Open. -/
theorem C2_release_slot_witness :
    (release_peripheral_slot [{ (default : peripheral_slot) with
        state := PERIPHERAL_SLOT_STATE_CONNECTED, conn := some 7,
        position_state := 32 :: List.replicate 15 0 }] 0 0).2.1.count
      { source := 0, position := 5, state := false, timestamp := 0 } = 1 ∧
    ((release_peripheral_slot [{ (default : peripheral_slot) with
        state := PERIPHERAL_SLOT_STATE_CONNECTED, conn := some 7,
        position_state := 32 :: List.replicate 15 0 }] 0 0).1.getD 0 default).state
      = PERIPHERAL_SLOT_STATE_OPEN := by
  have h := C2_release_slot [{ (default : peripheral_slot) with
      state := PERIPHERAL_SLOT_STATE_CONNECTED, conn := some 7,
      position_state := 32 :: List.replicate 15 0 }] 0 0 (by decide) (by decide)
  exact ⟨h.2.1 0 (by decide) 5 (by decide) (by decide), h.2.2.2.2.1⟩

/-! ## Claim C3 -/

/-- A slot bound to a live connection, for the C3 counterexample. -/
def slotC3 : peripheral_slot :=
  { (default : peripheral_slot) with conn := some 1, state := PERIPHERAL_SLOT_STATE_CONNECTED }

/-- C3 counterexample: the identity store returns index 0 and slot 0 is *not*
Open (it is Connected) — contrary to the claim, `reserve_peripheral_slot`
does not force a release and re-reserve: it fails with `-ENOMEM` and leaves
the slot untouched (still Connected, not Connecting). -/
theorem C3_counterexample :
    (reserve_peripheral_slot [slotC3] 0 0).2.2 = -ENOMEM ∧
    ¬(0 ≤ (reserve_peripheral_slot [slotC3] 0 0).2.2) ∧
    ((reserve_peripheral_slot [slotC3] 0 0).1.getD 0 default).state
      = PERIPHERAL_SLOT_STATE_CONNECTED := by decide

/-- C3 (amended): when the identity store returns a negative index, reserve
returns NoCapacity (`-ENOMEM`); when it returns an index whose slot is *not*
Open, reserve returns NoCapacity and leaves the table untouched; when it
returns an index whose slot *is* Open, reserve performs the defensive
`release_peripheral_slot` call — which on an Open slot is a non-fatal no-op
returning `-EINVAL` with no events — and then marks the slot Connecting and
returns the index; and releasing an already-Open slot is a non-fatal no-op
error. -/
theorem C3_reserve_semantics (peripherals : List peripheral_slot) (store_result : Int)
    (index now : Nat) :
    (store_result < 0 →
      reserve_peripheral_slot peripherals store_result now = (peripherals, [], -ENOMEM)) ∧
    (0 ≤ store_result →
      (peripherals.getD store_result.toNat default).state ≠ PERIPHERAL_SLOT_STATE_OPEN →
      reserve_peripheral_slot peripherals store_result now = (peripherals, [], -ENOMEM)) ∧
    (0 ≤ store_result →
      (peripherals.getD store_result.toNat default).state = PERIPHERAL_SLOT_STATE_OPEN →
      reserve_peripheral_slot peripherals store_result now =
        (peripherals.set store_result.toNat
          { peripherals.getD store_result.toNat default with
            state := PERIPHERAL_SLOT_STATE_CONNECTING }, [], store_result)) ∧
    (index < peripherals.length →
      (peripherals.getD index default).state = PERIPHERAL_SLOT_STATE_OPEN →
      release_peripheral_slot peripherals index now = (peripherals, [], -EINVAL)) := by
  refine ⟨?_, ?_, ?_, ?_⟩
  · intro h
    unfold reserve_peripheral_slot
    rw [if_neg (by omega)]
  · intro h0 hstate
    unfold reserve_peripheral_slot
    rw [if_pos h0]
    simp only []
    rw [if_neg hstate]
  · intro h0 hopen
    unfold reserve_peripheral_slot
    rw [if_pos h0]
    simp only []
    rw [if_pos hopen, release_peripheral_slot_eq_of_open peripherals store_result now hopen]
  · intro hlen hopen
    apply release_peripheral_slot_eq_of_open
    simpa only [Int.toNat_natCast] using hopen

/-- Witness for C3 (amended): reserving into a one-slot table whose slot is
Open marks it Connecting and returns index 0; releasing it while Open is the
`-EINVAL` no-op. -/
theorem C3_reserve_semantics_witness :
    reserve_peripheral_slot [(default : peripheral_slot)] 0 0 =
      ([{ (default : peripheral_slot) with state := PERIPHERAL_SLOT_STATE_CONNECTING }],
        [], 0) ∧
    release_peripheral_slot [(default : peripheral_slot)] 0 0 =
      ([(default : peripheral_slot)], [], -EINVAL) := by
  have h := C3_reserve_semantics [(default : peripheral_slot)] 0 0 0
  refine ⟨(h.2.2.1 (by decide) (by decide)).trans (by decide),
    (h.2.2.2 (by decide) (by decide)).trans (by decide)⟩

/-! ## Claim C4 -/

theorem ite_stop_iff (b : Bool) :
    (if b = true then BT_GATT_ITER_STOP else BT_GATT_ITER_CONTINUE) = BT_GATT_ITER_STOP ↔
      b = true := by
  cases b <;> simp

theorem not_or_eq_true_iff (a b : Bool) : (!a || b) = true ↔ (a = true → b = true) := by
  cases a <;> cases b <;> simp

/-- `discovery_complete` unfolded into the propositional conjunction the spec
describes: all mandatory handles plus every enabled optional handle non-zero. -/
theorem discovery_complete_iff (cfg : kconfig) (s : peripheral_slot) :
    discovery_complete cfg s = true ↔
      (s.run_behavior_handle ≠ 0 ∧ s.subscribe_value_handle ≠ 0 ∧
       s.selected_physical_layout_handle ≠ 0 ∧ s.update_layers_handle ≠ 0 ∧
       (cfg.keymap_has_sensors = true → s.sensor_subscribe_value_handle ≠ 0) ∧
       (cfg.peripheral_hid_indicators = true → s.update_hid_indicators ≠ 0) ∧
       (cfg.battery_level_fetching = true → s.batt_lvl_subscribe_value_handle ≠ 0)) := by
  unfold discovery_complete
  simp only [Bool.and_eq_true, not_or_eq_true_iff, bne_iff_ne, ne_eq]
  tauto

/-- C4: after each matched characteristic (an attribute carrying a
characteristic UUID), the discovery callback recomputes completeness as the
conjunction of the mandatory position-state, run-behavior, layout-select and
layer-update handles plus every configuration-enabled optional handle
(sensor, indicators, battery) being non-zero, and returns the stop signal
exactly when this conjunction holds on the updated slot, continuing
otherwise. -/
theorem C4_discovery_completeness (cfg : kconfig) (slot : peripheral_slot)
    (a : bt_gatt_attr) (u : split_chrc_uuid) (hu : a.user_data = some u) :
    ((split_central_chrc_discovery_func cfg slot (some a)).2 = BT_GATT_ITER_STOP ↔
      discovery_complete cfg (split_central_chrc_discovery_func cfg slot (some a)).1
        = true) ∧
    (discovery_complete cfg (split_central_chrc_discovery_func cfg slot (some a)).1 = true ↔
      ((split_central_chrc_discovery_func cfg slot (some a)).1.run_behavior_handle ≠ 0 ∧
       (split_central_chrc_discovery_func cfg slot (some a)).1.subscribe_value_handle ≠ 0 ∧
       (split_central_chrc_discovery_func cfg slot
         (some a)).1.selected_physical_layout_handle ≠ 0 ∧
       (split_central_chrc_discovery_func cfg slot (some a)).1.update_layers_handle ≠ 0 ∧
       (cfg.keymap_has_sensors = true →
         (split_central_chrc_discovery_func cfg slot
           (some a)).1.sensor_subscribe_value_handle ≠ 0) ∧
       (cfg.peripheral_hid_indicators = true →
         (split_central_chrc_discovery_func cfg slot (some a)).1.update_hid_indicators ≠ 0) ∧
       (cfg.battery_level_fetching = true →
         (split_central_chrc_discovery_func cfg slot
           (some a)).1.batt_lvl_subscribe_value_handle ≠ 0))) := by
  rcases a with ⟨ah, ud⟩
  cases hu
  exact ⟨ite_stop_iff _, discovery_complete_iff cfg _⟩

/-- Slot state for the C4 witness: position-state, layout-select and
layer-update already resolved, battery (and all other optional) handles not. -/
def slotC4 : peripheral_slot :=
  { (default : peripheral_slot) with
    subscribe_value_handle := 5, selected_physical_layout_handle := 7,
    update_layers_handle := 9 }

/-- Witness for C4 (spec scenario 4): with the battery capability disabled,
matching the run-behavior characteristic completes discovery and iteration
stops even though the battery handle is still unresolved (zero). -/
theorem C4_discovery_completeness_witness :
    (split_central_chrc_discovery_func
        { keymap_has_sensors := false, peripheral_hid_indicators := false,
          battery_level_fetching := false }
        slotC4 (some { handle := 10, user_data := some RUN_BEHAVIOR })).2
      = BT_GATT_ITER_STOP ∧
    slotC4.batt_lvl_subscribe_value_handle = 0 := by
  have h := C4_discovery_completeness
    { keymap_has_sensors := false, peripheral_hid_indicators := false,
      battery_level_fetching := false }
    slotC4 { handle := 10, user_data := some RUN_BEHAVIOR } RUN_BEHAVIOR rfl
  exact ⟨h.1.mpr (by decide), rfl⟩

/-! ## Claim C5 -/

/-- C5: on disconnect of a connection, the handler enqueues one synthetic
battery-changed event with percentage 0 for the slot, releases the slot —
emitting one pressed = false event per set position bit — and then calls
`start_scanning()` if and only if the release succeeded: no rescan when the
connection has no slot, no rescan when the slot was already Open, and a
rescan (after the release events) when the slot was held. -/
theorem C5_disconnected (cfg : kconfig) (peripherals : List peripheral_slot)
    (conn now : Nat) (hcfg : cfg.battery_level_fetching = true) :
    ((split_central_disconnected cfg peripherals conn now).2.1 =
      [{ source := ((peripheral_slot_index_for_conn peripherals conn) % 256).toNat,
         state_of_charge := 0 }]) ∧
    (peripheral_slot_index_for_conn peripherals conn < 0 →
      (split_central_disconnected cfg peripherals conn now).2.2.2 = false) ∧
    (0 ≤ peripheral_slot_index_for_conn peripherals conn →
      (peripherals.getD (peripheral_slot_index_for_conn peripherals conn).toNat
        default).state = PERIPHERAL_SLOT_STATE_OPEN →
      (split_central_disconnected cfg peripherals conn now).2.2.2 = false) ∧
    (0 ≤ peripheral_slot_index_for_conn peripherals conn →
      (peripherals.getD (peripheral_slot_index_for_conn peripherals conn).toNat
        default).state ≠ PERIPHERAL_SLOT_STATE_OPEN →
      (split_central_disconnected cfg peripherals conn now).2.2.2 = true ∧
      (∀ e, e ∈ (split_central_disconnected cfg peripherals conn now).2.2.1 ↔
        ∃ i, i < 16 ∧ ∃ j, j < 8 ∧
          ((peripherals.getD (peripheral_slot_index_for_conn peripherals conn).toNat
            default).position_state.getD i 0).testBit j = true ∧
          e = { source := (peripheral_slot_index_for_conn peripherals conn).toNat,
                position := i * 8 + j, state := false, timestamp := now }) ∧
      (∀ i, i < 16 → ∀ j, j < 8 →
        ((peripherals.getD (peripheral_slot_index_for_conn peripherals conn).toNat
          default).position_state.getD i 0).testBit j = true →
        (split_central_disconnected cfg peripherals conn now).2.2.1.count
          { source := (peripheral_slot_index_for_conn peripherals conn).toNat,
            position := i * 8 + j, state := false, timestamp := now } = 1)) := by
  refine ⟨?_, ?_, ?_, ?_⟩
  · show (if cfg.battery_level_fetching then _ else _) = _
    rw [hcfg]
    exact if_pos rfl
  · intro h0
    show decide (0 ≤ (release_peripheral_slot_for_conn peripherals conn now).2.2) = false
    unfold release_peripheral_slot_for_conn
    rw [if_pos h0]
    show decide (0 ≤ peripheral_slot_index_for_conn peripherals conn) = false
    exact decide_eq_false (by omega)
  · intro h0 hopen
    show decide (0 ≤ (release_peripheral_slot_for_conn peripherals conn now).2.2) = false
    unfold release_peripheral_slot_for_conn
    rw [if_neg (by omega), release_peripheral_slot_eq_of_open _ _ _ hopen]
    show decide ((0 : Int) ≤ -EINVAL) = false
    decide
  · intro h0 hstate
    have hlen : (peripheral_slot_index_for_conn peripherals conn).toNat
        < peripherals.length := by
      by_contra hc
      exact hstate (by rw [List.getD_eq_default _ _ (by omega)]; rfl)
    have hrel := release_peripheral_slot_eq peripherals
      (peripheral_slot_index_for_conn peripherals conn).toNat now hlen hstate
    rw [Int.toNat_of_nonneg h0] at hrel
    have hfc : release_peripheral_slot_for_conn peripherals conn now =
        release_peripheral_slot peripherals
          (peripheral_slot_index_for_conn peripherals conn) now := by
      unfold release_peripheral_slot_for_conn
      rw [if_neg (by omega)]
    refine ⟨?_, ?_, ?_⟩
    · show decide (0 ≤ (release_peripheral_slot_for_conn peripherals conn now).2.2) = true
      rw [hfc, hrel]
      rfl
    · intro e
      show e ∈ (release_peripheral_slot_for_conn peripherals conn now).2.1 ↔ _
      rw [hfc, hrel]
      exact @mem_peripheral_bitmap_events_ij
        (peripheral_slot_index_for_conn peripherals conn).toNat
        ((peripherals.getD (peripheral_slot_index_for_conn peripherals conn).toNat
          default).position_state) (fun _ _ => false) now e
    · intro i hi j hj hbit
      show ((release_peripheral_slot_for_conn peripherals conn now).2.1.count _) = 1
      rw [hfc, hrel]
      exact count_peripheral_bitmap_events_ij _ _ (fun _ _ => false) now i j hi hj hbit

/-- Connected slot with position bit 5 set, for the C5 witness. -/
def slotC5 : peripheral_slot :=
  { (default : peripheral_slot) with
    state := PERIPHERAL_SLOT_STATE_CONNECTED, conn := some 7,
    position_state := 32 :: List.replicate 15 0 }

/-- Witness for C5 (spec scenario 3): slot 0 (conn handle 7) disconnects with
bit 5 set: a zero-percentage battery event, one release event for position 5,
and scanning is resumed. -/
theorem C5_disconnected_witness :
    (split_central_disconnected
        { keymap_has_sensors := false, peripheral_hid_indicators := false,
          battery_level_fetching := true } [slotC5] 7 0).2.1 =
      [{ source := 0, state_of_charge := 0 }] ∧
    (split_central_disconnected
        { keymap_has_sensors := false, peripheral_hid_indicators := false,
          battery_level_fetching := true } [slotC5] 7 0).2.2.2 = true ∧
    (split_central_disconnected
        { keymap_has_sensors := false, peripheral_hid_indicators := false,
          battery_level_fetching := true } [slotC5] 7 0).2.2.1.count
      { source := 0, position := 5, state := false, timestamp := 0 } = 1 := by
  have h := C5_disconnected
    { keymap_has_sensors := false, peripheral_hid_indicators := false,
      battery_level_fetching := true } [slotC5] 7 0 rfl
  refine ⟨h.1.trans (by decide), (h.2.2.2 (by decide) (by decide)).1, ?_⟩
  exact (h.2.2.2 (by decide) (by decide)).2.2 0 (by decide) 5 (by decide) (by decide)

/-! ## Claim C6 -/

/-- Connected slot with a resolved HID-indicators handle, for C6. -/
def slotC6 : peripheral_slot :=
  { (default : peripheral_slot) with
    state := PERIPHERAL_SLOT_STATE_CONNECTED, conn := some 3,
    update_hid_indicators := 5 }

/-- C6 counterexample: a Connected slot with a resolved indicators handle
whose link security level (0) is below `BT_SECURITY_L2`: the broadcast
indicator worker still performs the transport write — the C indicator path
has no `bt_conn_get_security` check, so the claimed skip does not happen. -/
theorem C6_counterexample :
    (fun _ => 0 : Nat → Nat) 3 < BT_SECURITY_L2 ∧
    split_central_update_indicators_callback (fun _ => 0) [slotC6] 1 =
      [{ conn := 3, handle := 5, value := 1 }] := by
  exact ⟨by decide, rfl⟩

/-- C6 (amended): a broadcast layout-selection write to a slot whose link
security is below `BT_SECURITY_L2` is skipped with the try-again outcome
(`-EAGAIN`) and performs no transport write — every write the layout
broadcast emits targets a link at security `≥ L2`; the broadcast indicator
write, however, is *not* security-gated: it writes to every Connected slot
with a resolved indicators handle regardless of the link's security level
(the indicator worker never consults the security map at all). -/
theorem C6_security_gating (security : Nat → Nat) (peripherals : List peripheral_slot)
    (slot : peripheral_slot) (layout_idx indicators : Nat) :
    (slot.state = PERIPHERAL_SLOT_STATE_CONNECTED →
      slot.selected_physical_layout_handle ≠ 0 →
      security (slot.conn.getD 0) < BT_SECURITY_L2 →
      update_peripheral_selected_layout security slot layout_idx = (-EAGAIN, [])) ∧
    (∀ w, w ∈ update_peripherals_selected_physical_layout security peripherals layout_idx →
      BT_SECURITY_L2 ≤ security w.conn) ∧
    (∀ s, s ∈ peripherals → s.state = PERIPHERAL_SLOT_STATE_CONNECTED →
      s.update_hid_indicators ≠ 0 →
      { conn := s.conn.getD 0, handle := s.update_hid_indicators, value := indicators }
        ∈ split_central_update_indicators_callback security peripherals indicators) ∧
    (∀ security' : Nat → Nat,
      split_central_update_indicators_callback security peripherals indicators =
        split_central_update_indicators_callback security' peripherals indicators) := by
  refine ⟨?_, ?_, ?_, fun security' => rfl⟩
  · intro h1 h2 h3
    unfold update_peripheral_selected_layout
    rw [if_neg (fun hn => hn h1), if_neg h2, if_pos h3]
  · intro w hw
    unfold update_peripherals_selected_physical_layout at hw
    simp only [List.mem_flatMap] at hw
    obtain ⟨s, hs, hw⟩ := hw
    by_cases h1 : s.state ≠ PERIPHERAL_SLOT_STATE_CONNECTED
    · rw [if_pos h1] at hw
      simp at hw
    · rw [if_neg h1] at hw
      unfold update_peripheral_selected_layout at hw
      rw [if_neg h1] at hw
      by_cases h2 : s.selected_physical_layout_handle = 0
      · rw [if_pos h2] at hw
        simp at hw
      · rw [if_neg h2] at hw
        by_cases h3 : security (s.conn.getD 0) < BT_SECURITY_L2
        · rw [if_pos h3] at hw
          simp at hw
        · rw [if_neg h3] at hw
          simp only [List.mem_singleton] at hw
          subst hw
          exact not_lt.mp h3
  · intro s hs h1 h2
    unfold split_central_update_indicators_callback
    rw [List.mem_flatMap]
    refine ⟨s, hs, ?_⟩
    rw [if_neg (fun hn => hn h1), if_neg h2]
    exact List.mem_singleton.mpr rfl

/-- Connected slot with a resolved layout-select handle, for the C6 witness. -/
def slotC6lay : peripheral_slot :=
  { (default : peripheral_slot) with
    state := PERIPHERAL_SLOT_STATE_CONNECTED, conn := some 3,
    selected_physical_layout_handle := 9 }

/-- Witness for C6 (amended): at security level 0, the layout write is the
`-EAGAIN` skip with no transport call, while the indicator write happens. -/
theorem C6_security_gating_witness :
    update_peripheral_selected_layout (fun _ => 0) slotC6lay 4 = (-EAGAIN, []) ∧
    { conn := 3, handle := 5, value := 1 } ∈
      split_central_update_indicators_callback (fun _ => 0) [slotC6] 1 := by
  have h := C6_security_gating (fun _ => 0) [slotC6] slotC6lay 4 1
  exact ⟨h.1 (by decide) (by decide) (by decide),
    h.2.2.1 slotC6 (by decide) (by decide) (by decide)⟩

/-! ## Claim C7 -/

/-- C7: enqueueing an outbound invoke-behavior command while the queue is
full pops and discards exactly the oldest pending item, retries the enqueue
once (attempt budget 2 = the initial try plus one retry suffices: the result
is not the fuel-exhausted `none`), enqueues the new command at the back,
reports success and schedules the worker exactly once. -/
theorem C7_invoke_queue_full (q : k_msgq zmk_split_run_behavior_payload_wrapper)
    (w : zmk_split_run_behavior_payload_wrapper)
    (hfull : q.items.length = q.capacity) (hcap : 0 < q.capacity) :
    split_bt_invoke_behavior_payload 2 q w =
      some ({ capacity := q.capacity, items := q.items.tail ++ [w] }, 0, 1) := by
  have hstep : ∀ (qq : k_msgq zmk_split_run_behavior_payload_wrapper) (f : Nat),
      split_bt_invoke_behavior_payload (f + 1) qq w =
        (if (k_msgq_put qq w).2 = 0 then some ((k_msgq_put qq w).1, 0, 1)
         else if (k_msgq_put qq w).2 = -EAGAIN then
           split_bt_invoke_behavior_payload f (k_msgq_get (k_msgq_put qq w).1).1 w
         else some ((k_msgq_put qq w).1, (k_msgq_put qq w).2, 0)) :=
    fun qq f => rfl
  have key : ∀ (qq : k_msgq zmk_split_run_behavior_payload_wrapper) (f : Nat),
      ¬(qq.items.length < qq.capacity) →
      split_bt_invoke_behavior_payload (f + 1) qq w =
        split_bt_invoke_behavior_payload f (k_msgq_get qq).1 w := by
    intro qq f hn
    have hput : k_msgq_put qq w = (qq, -EAGAIN) := by
      unfold k_msgq_put
      rw [if_neg hn]
    rw [hstep qq f, hput]
    norm_num [EAGAIN]
  have key2 : ∀ (qq : k_msgq zmk_split_run_behavior_payload_wrapper) (f : Nat),
      qq.items.length < qq.capacity →
      split_bt_invoke_behavior_payload (f + 1) qq w =
        some ({ capacity := qq.capacity, items := qq.items ++ [w] }, 0, 1) := by
    intro qq f hlt
    have hput : k_msgq_put qq w = ({ qq with items := qq.items ++ [w] }, 0) := by
      unfold k_msgq_put
      rw [if_pos hlt]
    rw [hstep qq f, hput]
    norm_num
  obtain ⟨cap, items⟩ := q
  dsimp only at hfull hcap ⊢
  cases items with
  | nil =>
    simp only [List.length_nil] at hfull
    omega
  | cons x rest =>
    have hfull' : rest.length + 1 = cap := by simpa using hfull
    have h1 := key ⟨cap, x :: rest⟩ 1
      (by dsimp only; simp only [List.length_cons]; omega)
    have h2 := key2 ⟨cap, rest⟩ 0 (by dsimp only; omega)
    exact h1.trans h2

/-- A concrete invoke-behavior payload for the C7 witness. -/
def wC7 (n : Nat) : zmk_split_run_behavior_payload_wrapper :=
  { source := 0
    payload := { data := { param1 := 0, param2 := 0, position := n, source := 0, state := 1 }
                 behavior_dev := "kp" } }

/-- Witness for C7 (spec scenario 5): a 2-slot queue at capacity receives a
third command: the oldest is dropped, the new one enqueued, the worker is
scheduled once, and the call terminates within one retry. -/
theorem C7_invoke_queue_full_witness :
    split_bt_invoke_behavior_payload 2 { capacity := 2, items := [wC7 1, wC7 2] } (wC7 3) =
      some ({ capacity := 2, items := [wC7 2, wC7 3] }, 0, 1) := by
  have h := C7_invoke_queue_full { capacity := 2, items := [wC7 1, wC7 2] } (wC7 3)
    rfl (by decide)
  exact h.trans rfl

/-! ## Claim C8 -/

/-- C8 (code bug): a position-state notification whose declared `length` is 0
— shorter than the 16-byte bitmap — is *not* dropped: `split_central_notify_func`
never consults `length` and reads 16 bytes from the data pointer regardless
(an out-of-bounds read in the C).  With an all-zero previous snapshot and the
bytes reachable from the pointer all `0x01`, the zero-length notification
emits 16 events and overwrites the stored bitmap, where the claim requires no
event and unchanged state. -/
theorem C8_zero_length_payload_not_dropped :
    (split_central_notify_func default 0 (some fun _ => 1) 0 0).2.1.length = 16 ∧
    (split_central_notify_func default 0 (some fun _ => 1) 0 0).1.position_state =
      List.replicate 16 1 ∧
    { source := 0, position := 0, state := true, timestamp := 0 }
      ∈ (split_central_notify_func default 0 (some fun _ => 1) 0 0).2.1 := by decide

/-! ## Claim C9 -/

/-- C9 (code bug): a sensor notification reporting `channel_data_size = 3`
with `ZMK_SENSOR_EVENT_MAX_CHANNELS = 1` and a valid length: the emitted
event's `channel_data_size` field is truncated to 1, but the channel-data
copy is sized by the *untruncated* reported count — three entries are copied
(in the C, a `memcpy` overflowing the event's one-entry `channel_data`
buffer), where the claim requires never more than the truncated count. -/
theorem C9_sensor_channel_copy_overflow :
    split_central_sensor_notify_func 1
        (some { sensor_index := 7, channel_data_size := 3, channel_mem := fun k => k + 10 })
        8 0 =
      (BT_GATT_ITER_CONTINUE,
        [{ sensor_index := 7, channel_data_size := 1, channel_data := [10, 11, 12],
           timestamp := 0 }]) := rfl

/-! ## Claim C10 -/

/-- C10: the peripheral battery query returns `-EINVAL` for every source at
or beyond the table capacity, `-ENOTCONN` for every in-range source whose
slot is not Connected, and otherwise the stored percentage, read at an index
proven in bounds (`List.get` with the bound). -/
theorem C10_battery_level_query (peripherals : List peripheral_slot)
    (battery_levels : List Nat) (source : Nat)
    (hlen : battery_levels.length = peripherals.length) :
    (peripherals.length ≤ source →
      zmk_split_get_peripheral_battery_level peripherals battery_levels source =
        .error (-EINVAL)) ∧
    (∀ h : source < peripherals.length,
      (peripherals.get ⟨source, h⟩).state ≠ PERIPHERAL_SLOT_STATE_CONNECTED →
      zmk_split_get_peripheral_battery_level peripherals battery_levels source =
        .error (-ENOTCONN)) ∧
    (∀ h : source < peripherals.length,
      (peripherals.get ⟨source, h⟩).state = PERIPHERAL_SLOT_STATE_CONNECTED →
      zmk_split_get_peripheral_battery_level peripherals battery_levels source =
        .ok (battery_levels.get ⟨source, by omega⟩)) := by
  refine ⟨?_, ?_, ?_⟩
  · intro h
    unfold zmk_split_get_peripheral_battery_level
    rw [if_pos (by omega)]
  · intro h hst
    have hg : peripherals.getD source default = peripherals.get ⟨source, h⟩ := by
      rw [List.getD_eq_getElem?_getD, List.getElem?_eq_getElem h]
      rfl
    unfold zmk_split_get_peripheral_battery_level
    rw [if_neg (by omega), if_pos (by rw [hg]; exact hst)]
  · intro h hst
    have hg : peripherals.getD source default = peripherals.get ⟨source, h⟩ := by
      rw [List.getD_eq_getElem?_getD, List.getElem?_eq_getElem h]
      rfl
    have hg2 : battery_levels.getD source 0 =
        battery_levels.get ⟨source, by omega⟩ := by
      rw [List.getD_eq_getElem?_getD, List.getElem?_eq_getElem (by omega : source < battery_levels.length)]
      rfl
    unfold zmk_split_get_peripheral_battery_level
    rw [if_neg (by omega), if_neg (by rw [hg]; exact fun hn => hn hst), hg2]

/-- Connected slot for the C10 witness. -/
def slotC10 : peripheral_slot :=
  { (default : peripheral_slot) with
    state := PERIPHERAL_SLOT_STATE_CONNECTED, conn := some 2 }

/-- Witness for C10: a one-slot table with a stored level of 77: in-range
connected query returns 77, out-of-range query returns `-EINVAL`. -/
theorem C10_battery_level_query_witness :
    zmk_split_get_peripheral_battery_level [slotC10] [77] 0 = .ok 77 ∧
    zmk_split_get_peripheral_battery_level [slotC10] [77] 1 = .error (-EINVAL) := by
  have h := C10_battery_level_query [slotC10] [77] 0 rfl
  have h2 := C10_battery_level_query [slotC10] [77] 1 rfl
  exact ⟨h.2.2 (by decide) (by decide), h2.1 (by decide)⟩

end ZmkSplitCentral
